import Mathlib

/-!
Shallow embedding of `src/pareto_google_sheets_streamlit_clinica.py`.

The program loads a Google-Sheets spreadsheet as CSV, tallies comma-separated
multi-select answers per question column, and renders one Pareto chart per
question.  Numbers that the Python code computes with numpy floats are
embedded as `ℚ`: all inputs are natural-number counts, so the float
computation is exact on this data and `ℚ` captures its mathematical value.

Cells of a loaded table are `Option String`: `pd.read_csv` turns an empty
CSV field into NaN, which `dropna()` removes, so a missing/empty cell is
`none` and a present textual cell is `some s`.
-/

namespace ParetoClinica

/-! ### Python string primitives (char-list level, kernel-executable) -/

/-- Is `p` a leading segment of `s`?  (Both as char lists.) -/
def listPre : List Char → List Char → Bool
  | [], _ => true
  | _ :: _, [] => false
  | a :: as, b :: bs => a == b && listPre as bs

/-- Does `sub` occur contiguously somewhere in `s`?  Embeds Python's
substring test `sub in s`. -/
def listOccurs (sub : List Char) : List Char → Bool
  | [] => listPre sub []
  | c :: rest => listPre sub (c :: rest) || listOccurs sub rest

/-- Python's `sub in s` on strings. -/
def pyIn (sub s : String) : Bool := listOccurs sub.toList s.toList

/-- First occurrence of `sep` in `s`: returns the part before it and the part
after it, or `none` when `sep` does not occur. -/
def findSplit (sep : List Char) : List Char → Option (List Char × List Char)
  | [] => if sep.isEmpty then some ([], []) else none
  | c :: rest =>
    if listPre sep (c :: rest) then some ([], (c :: rest).drop sep.length)
    else
      match findSplit sep rest with
      | none => none
      | some (b, a) => some (c :: b, a)

/-- Fuelled splitting loop; for a non-empty separator a fuel of
`s.length + 1` always suffices, since each step consumes at least one
character of `s`. -/
def pySplitFuel (sep : List Char) : Nat → List Char → List (List Char)
  | 0, s => [s]
  | fuel + 1, s =>
    match findSplit sep s with
    | none => [s]
    | some (b, a) => b :: pySplitFuel sep fuel a

/-- Python's `s.split(sep)` for a non-empty separator `sep` (the only way the
program calls it): split `s` at every non-overlapping occurrence of `sep`,
scanning left to right. -/
def pySplit (sep s : String) : List String :=
  (pySplitFuel sep.toList (s.toList.length + 1) s.toList).map List.asString

/-- Python's `s.strip()`: remove leading and trailing whitespace. -/
def pyStrip (s : String) : String :=
  (((s.toList.dropWhile Char.isWhitespace).reverse.dropWhile
      Char.isWhitespace).reverse).asString

/-! ### Data model -/

/-- A loaded table: ordered column names, and for each column name its cells
(top to bottom).  A `none` cell is a missing value (NaN after `read_csv`). -/
structure DataFrame where
  colunas : List String
  dados : String → List (Option String)

/-- A `collections.Counter` over option labels: an association list in key
insertion order, as Python dicts preserve insertion order. -/
abbrev Counter := List (String × Nat)

/-- Adding one observed string to a `Counter`: bump an existing key in place,
or append a fresh key with count 1.  This is `Counter`'s dict update
semantics. -/
def counterAdd (c : Counter) (s : String) : Counter :=
  if c.any (fun p => p.1 == s) then
    c.map (fun p => if p.1 == s then (p.1, p.2 + 1) else p)
  else c ++ [(s, 1)]

/-- `collections.Counter(l)` for a list of strings. -/
def mkCounter (l : List String) : Counter := l.foldl counterAdd []

/-! ### DADOS: lines 69–90 of the source -/

/-- Error message of the `else` branch of `carregar_planilha_google_sheets`. -/
def msg_url_invalida : String :=
  "URL inválida. Verifique se é um link público do Google Sheets."

/-- `url.split("/d/e/")[1].split("/")[0]` (line 72). -/
def published_id (url : String) : String :=
  (pySplit "/" ((pySplit "/d/e/" url).getD 1 "")).getD 0 ""

/-- `url.split("/d/")[1].split("/")[0]` (line 75). -/
def sheet_id (url : String) : String :=
  (pySplit "/" ((pySplit "/d/" url).getD 1 "")).getD 0 ""

/-- The f-string of line 73. -/
def csv_url_pub (i : String) : String :=
  "https://docs.google.com/spreadsheets/d/e/" ++ i ++ "/pub?output=csv"

/-- The f-string of line 76. -/
def csv_url_export (i : String) : String :=
  "https://docs.google.com/spreadsheets/d/" ++ i ++ "/export?format=csv"

/-- The URL-shape dispatch of lines 71–79: the CSV export URL when the input
matches one of the two recognized shapes, `none` for the invalid-URL branch. -/
def resolver_csv_url (url : String) : Option String :=
  if pyIn "docs.google.com/spreadsheets/d/e/" url then
    some (csv_url_pub (published_id url))
  else if pyIn "docs.google.com/spreadsheets/d/" url then
    some (csv_url_export (sheet_id url))
  else none

/-- `carregar_planilha_google_sheets` (lines 69–83).  The network fetch
`pd.read_csv` is abstracted as a `fetch` oracle that either yields a table or
raises (an `Except.error` message, caught by the source's `try/except`).
Result: the returned table (`None` embedded as `none`) paired with the list
of `st.error` messages shown. -/
def carregar_planilha_google_sheets (fetch : String → Except String DataFrame)
    (url : String) : Option DataFrame × List String :=
  match resolver_csv_url url with
  | none => (none, [msg_url_invalida])
  | some csv_url =>
    match fetch csv_url with
    | Except.ok df => (some df, [])
    | Except.error e => (none, ["Erro ao carregar dados: " ++ e])

/-- `contar_respostas_multipla` (lines 85–90): over the non-missing cells of
the column, split each cell on commas, strip every fragment, and count. -/
def contar_respostas_multipla (df : DataFrame) (coluna : String) : Counter :=
  mkCounter
    (((df.dados coluna).filterMap id).flatMap
      (fun resposta => (pySplit "," resposta).map pyStrip))

/-! ### FIGURA: lines 95–153 of the source -/

/-- The descending-by-count order used by `Counter.most_common()`:
`a` may come before `b` when `b`'s count is at most `a`'s. -/
def descCount (a b : String × Nat) : Prop := b.2 ≤ a.2

instance : DecidableRel descCount := fun a b => Nat.decLe b.2 a.2

instance : IsTotal (String × Nat) descCount := ⟨fun a b => Nat.le_total b.2 a.2⟩

instance : IsTrans (String × Nat) descCount :=
  ⟨fun _ _ _ h1 h2 => Nat.le_trans h2 h1⟩

/-- `Counter.most_common()`: the entries sorted by count descending; ties keep
insertion order (Python's `sorted` is stable).  A stable descending sort is
unique as a function, so insertion sort is extensionally the library call. -/
def most_common (c : Counter) : List (String × Nat) :=
  List.insertionSort descCount c

/-- Running-sum worker: `cumsumAux acc l` lists the partial sums of `l`
starting from `acc`. -/
def cumsumAux (acc : ℚ) : List ℚ → List ℚ
  | [] => []
  | x :: xs => (acc + x) :: cumsumAux (acc + x) xs

/-- `np.cumsum`. -/
def cumsum (l : List ℚ) : List ℚ := cumsumAux 0 l

/-- Line 106–107: `totais = np.array(valores, dtype=float)` and
`p_acum = 100 * np.cumsum(totais) / totais.sum()`, exact over `ℚ`. -/
def p_acum (valores : List Nat) : List ℚ :=
  (cumsum (valores.map (fun (v : Nat) => (v : ℚ)))).map
    (fun s => 100 * s / (valores.map (fun (v : Nat) => (v : ℚ))).sum)

/-- The figure `criar_figura_pareto_dict` returns, reduced to its data
content: either the "Sem dados para exibir" placeholder, or a Pareto chart
carrying the labels, the bar heights and the cumulative-percentage line. -/
inductive Figura where
  | semDados : Figura
  | pareto (labels : List String) (totais : List ℚ) (pAcum : List ℚ) : Figura
deriving DecidableEq

/-- `criar_figura_pareto_dict` (lines 95–153): an empty counter short-circuits
to the placeholder (line 100–103) before any division; otherwise the series
are derived from `counter.most_common()` (lines 105–107). -/
def criar_figura_pareto_dict (counter : Counter) : Figura :=
  if counter = [] then Figura.semDados
  else
    let lv := most_common counter
    Figura.pareto (lv.map (fun p => p.1))
      ((lv.map (fun p => p.2)).map (fun (v : Nat) => (v : ℚ)))
      (p_acum (lv.map (fun p => p.2)))

/-! ### Top level: lines 293–311 of the source -/

/-- `perguntas = df.columns[1:8]` (line 299): Python's slice `[1:8]` is
drop 1 then take 7. -/
def perguntas (df : DataFrame) : List String := (df.colunas.drop 1).take 7

/-- The render loop of lines 301–309: `for i in range(0, len(perguntas), 2)`
with an inner `for j in range(2): if i + j < len(perguntas)`.  Yields, in
render order, each charted column with its tally.  `range(0, n, 2)` has
`(n + 1) / 2` elements. -/
def loopCharts (qs : List String) (conta : String → Counter) :
    List (String × Counter) :=
  (List.range' 0 ((qs.length + 1) / 2) 2).flatMap (fun i =>
    (List.range 2).filterMap (fun j =>
      if i + j < qs.length then
        some (qs.getD (i + j) "", conta (qs.getD (i + j) ""))
      else none))

/-- The charts the page renders after a successful load: one per loop
iteration of lines 301–309. -/
def chartsRendered (df : DataFrame) : List (String × Counter) :=
  loopCharts (perguntas df) (contar_respostas_multipla df)

/-- Outcome of the top-level `if df is not None ... else` (lines 295–311). -/
inductive Pagina where
  | sucesso (charts : List (String × Counter)) : Pagina
  | falha : Pagina
deriving DecidableEq

/-- The whole page: load, then either render the charts or show the
top-level "Não foi possível carregar" error. -/
def paginaPrincipal (fetch : String → Except String DataFrame)
    (url : String) : Pagina :=
  match (carregar_planilha_google_sheets fetch url).1 with
  | some df => Pagina.sucesso (chartsRendered df)
  | none => Pagina.falha

/-! ### Concrete tables used to instantiate the theorems -/

/-- Four-row single-question table of the spec's tally example; the empty
cell is a missing value after `read_csv`. -/
def dfMulti : DataFrame :=
  ⟨["col"], fun _ => [some "A, B", some "B", none, some "A,  B , C"]⟩

/-- A two-column table, to exhibit which columns receive charts. -/
def dfDuasColunas : DataFrame := ⟨["a", "b"], fun _ => [some "x"]⟩

/-- A table whose only question column has only missing cells. -/
def dfTodasFaltantes : DataFrame := ⟨["q"], fun _ => [none, none, none]⟩

/-- A small table with repeated answers, for the positivity witness. -/
def dfPositivo : DataFrame :=
  ⟨["q"], fun _ => [some "Sim, Não", some "Sim"]⟩

/-! ### Helper lemmas -/

lemma listPre_trans {b a s : List Char} (hba : listPre b a = true)
    (has : listPre a s = true) : listPre b s = true := by
  induction b generalizing a s with
  | nil => simp [listPre]
  | cons x xs ih =>
    cases a with
    | nil => simp [listPre] at hba
    | cons y ys =>
      cases s with
      | nil => simp [listPre] at has
      | cons z zs =>
        simp only [listPre, Bool.and_eq_true, beq_iff_eq] at hba has ⊢
        exact ⟨hba.1.trans has.1, ih hba.2 has.2⟩

lemma listOccurs_of_pre {sub s : List Char} (h : listPre sub s = true) :
    listOccurs sub s = true := by
  cases s with
  | nil => simpa [listOccurs] using h
  | cons c rest => simp [listOccurs, h]

lemma listOccurs_mono {b a : List Char} (hba : listPre b a = true) :
    ∀ {s : List Char}, listOccurs a s = true → listOccurs b s = true := by
  intro s
  induction s with
  | nil =>
    simp only [listOccurs]
    exact fun h => listPre_trans hba h
  | cons c rest ih =>
    simp only [listOccurs, Bool.or_eq_true]
    rintro (h | h)
    · exact Or.inl (listPre_trans hba h)
    · exact Or.inr (ih h)

lemma listPre_append_self (x y : List Char) : listPre x (x ++ y) = true := by
  induction x with
  | nil => simp [listPre]
  | cons c cs ih => simp [listPre, ih]

lemma listOccurs_append_mid (a sub b : List Char) :
    listOccurs sub (a ++ (sub ++ b)) = true := by
  induction a with
  | nil => simpa using listOccurs_of_pre (listPre_append_self sub b)
  | cons c cs ih => simp [listOccurs, ih]

lemma pyIn_append_mid (a i b : String) : pyIn i (a ++ i ++ b) = true := by
  unfold pyIn
  have h : (a ++ i ++ b).toList = a.toList ++ (i.toList ++ b.toList) := by
    show (a ++ i ++ b).data = a.data ++ (i.data ++ b.data)
    rw [String.data_append, String.data_append, List.append_assoc]
  rw [h]
  exact listOccurs_append_mid _ _ _

lemma counterAdd_pos {c : Counter} (h : ∀ p ∈ c, 1 ≤ p.2) (s : String) :
    ∀ p ∈ counterAdd c s, 1 ≤ p.2 := by
  intro p hp
  unfold counterAdd at hp
  split at hp
  · simp only [List.mem_map] at hp
    obtain ⟨q, hq, hqe⟩ := hp
    by_cases h1 : (q.1 == s) = true
    · rw [if_pos h1] at hqe
      rw [← hqe]
      exact Nat.le_succ_of_le (h q hq)
    · rw [if_neg h1] at hqe
      rw [← hqe]
      exact h q hq
  · rw [List.mem_append] at hp
    rcases hp with hp | hp
    · exact h p hp
    · rw [List.mem_singleton] at hp
      rw [hp]

lemma foldl_counterAdd_pos :
    ∀ (l : List String) (c : Counter), (∀ p ∈ c, 1 ≤ p.2) →
      ∀ p ∈ l.foldl counterAdd c, 1 ≤ p.2
  | [], _, hc => by simpa using hc
  | x :: xs, c, hc => foldl_counterAdd_pos xs (counterAdd c x) (counterAdd_pos hc x)

lemma mkCounter_pos (l : List String) : ∀ p ∈ mkCounter l, 1 ≤ p.2 :=
  foldl_counterAdd_pos l [] (by simp)

lemma most_common_perm (c : Counter) : (most_common c).Perm c :=
  List.perm_insertionSort descCount c

lemma most_common_sum_pos (c : Counter) (hc : c ≠ [])
    (hpos : ∀ p ∈ c, 1 ≤ p.2) :
    0 < ((most_common c).map (fun p => p.2)).sum := by
  have hperm := (most_common_perm c).map (fun p => p.2)
  rw [hperm.sum_eq]
  obtain ⟨p, hp⟩ := List.exists_mem_of_ne_nil c hc
  calc 0 < p.2 := hpos p hp
    _ ≤ (c.map (fun q => q.2)).sum :=
        List.single_le_sum (by simp) _ (List.mem_map_of_mem _ hp)

lemma cumsumAux_cons_chain (l : List ℚ) :
    ∀ acc : ℚ, (∀ x ∈ l, 0 ≤ x) →
      List.Chain' (· ≤ ·) (acc :: cumsumAux acc l) := by
  induction l with
  | nil => intro acc _; simp [cumsumAux]
  | cons x xs ih =>
    intro acc hx
    have h0 : 0 ≤ x := hx x (by simp)
    have hrest := ih (acc + x) (fun y hy => hx y (by simp [hy]))
    simp only [cumsumAux]
    exact List.chain'_cons.mpr ⟨by linarith, hrest⟩

lemma cumsumAux_getLast (l : List ℚ) :
    ∀ acc : ℚ, l ≠ [] → (cumsumAux acc l).getLast? = some (acc + l.sum) := by
  induction l with
  | nil => intro acc h; exact absurd rfl h
  | cons x xs ih =>
    intro acc _
    cases xs with
    | nil => simp [cumsumAux]
    | cons y ys =>
      have hrec := ih (acc + x) (by simp)
      simp only [cumsumAux] at hrec ⊢
      rw [List.getLast?_cons_cons, hrec]
      simp only [List.sum_cons, Option.some.injEq]
      ring

lemma cumsum_chain (l : List ℚ) (h : ∀ x ∈ l, 0 ≤ x) :
    List.Chain' (· ≤ ·) (cumsum l) :=
  (cumsumAux_cons_chain l 0 h).tail

lemma sum_cast_pos (valores : List Nat) (h : 0 < valores.sum) :
    (0 : ℚ) < (valores.map (fun (v : Nat) => (v : ℚ))).sum := by
  have hcast : ((valores.sum : ℕ) : ℚ) = (valores.map (fun (v : Nat) => (v : ℚ))).sum :=
    Nat.cast_list_sum valores
  rw [← hcast]
  exact_mod_cast h

lemma p_acum_chain (valores : List Nat) (h : 0 < valores.sum) :
    List.Chain' (· ≤ ·) (p_acum valores) := by
  have hsum := sum_cast_pos valores h
  have hnn : ∀ x ∈ valores.map (fun (v : Nat) => (v : ℚ)), 0 ≤ x := by
    intro x hx
    obtain ⟨v, _, rfl⟩ := List.mem_map.mp hx
    positivity
  unfold p_acum
  rw [List.chain'_map]
  exact (cumsum_chain _ hnn).imp (fun a b hab => by gcongr)

lemma p_acum_getLast (valores : List Nat) (h : 0 < valores.sum) :
    (p_acum valores).getLast? = some 100 := by
  have hsum := sum_cast_pos valores h
  have hne : valores.map (fun (v : Nat) => (v : ℚ)) ≠ [] := by
    rintro hmap
    rw [List.map_eq_nil_iff] at hmap
    rw [hmap] at h
    simp at h
  unfold p_acum cumsum
  rw [List.getLast?_map, cumsumAux_getLast _ 0 hne]
  simp only [Option.map_some', Option.some.injEq, zero_add]
  rw [mul_div_assoc, div_self hsum.ne', mul_one]

lemma loopCharts_eq (qs : List String) (f : String → Counter)
    (h : qs.length ≤ 7) : loopCharts qs f = qs.map (fun q => (q, f q)) := by
  rcases qs with _ | ⟨a, _ | ⟨b, _ | ⟨c, _ | ⟨d, _ | ⟨e, _ | ⟨g, _ | ⟨i, _ | ⟨j, t⟩⟩⟩⟩⟩⟩⟩⟩
  · rfl
  · simp [loopCharts, List.range_succ, (show List.range' 0 1 2 = [0] from rfl)]
  · simp [loopCharts, List.range_succ, (show List.range' 0 1 2 = [0] from rfl)]
  · simp [loopCharts, List.range_succ, (show List.range' 0 2 2 = [0, 2] from rfl)]
  · simp [loopCharts, List.range_succ, (show List.range' 0 2 2 = [0, 2] from rfl)]
  · simp [loopCharts, List.range_succ, (show List.range' 0 3 2 = [0, 2, 4] from rfl)]
  · simp [loopCharts, List.range_succ, (show List.range' 0 3 2 = [0, 2, 4] from rfl)]
  · simp [loopCharts, List.range_succ,
      (show List.range' 0 4 2 = [0, 2, 4, 6] from rfl)]
  · simp only [List.length_cons] at h
    omega

/-! ### Claims -/

/-- C1: for a column whose cells are "A, B", "B", an empty (missing) cell and
"A,  B , C", `contar_respostas_multipla` returns exactly the counts A ↦ 2,
B ↦ 3, C ↦ 1: every non-missing cell is split on commas, each fragment is
stripped of surrounding whitespace, one count accumulates per fragment, and
the empty cell contributes nothing. -/
theorem C1_tally_example :
    contar_respostas_multipla dfMulti "col" = [("A", 2), ("B", 3), ("C", 1)] := by
  decide

/-- C2 counterexample: the program does not chart the first eight columns.
On a two-column table the rendered charts cover only column "b": the slice
`df.columns[1:8]` skips the first column, so the claimed slice
`df.colunas.take 8 = ["a", "b"]` is not what gets charted. -/
theorem C2_counterexample :
    ¬ (chartsRendered dfDuasColunas).map Prod.fst
        = dfDuasColunas.colunas.take 8 := by
  decide

/-- C2 (amended): after a successful load the program renders exactly one
chart per column of the fixed slice `df.columns[1:8]`, i.e. the second
through eighth columns of the loaded table (at most seven charts; fewer when
the table has fewer than eight columns). -/
theorem C2_slice_charts (df : DataFrame) :
    chartsRendered df
      = (perguntas df).map (fun q => (q, contar_respostas_multipla df q)) := by
  unfold chartsRendered
  apply loopCharts_eq
  show ((df.colunas.drop 1).take 7).length ≤ 7
  rw [List.length_take]
  exact min_le_left _ _

/-- C3: for every tally with positive total count,
`criar_figura_pareto_dict` derives exactly the cumulative-percentage series
`p_acum` of the sorted counts, and that series is non-decreasing with last
element 100. -/
theorem C3_p_acum_monotone_last (c : Counter)
    (h : 0 < (c.map (fun p => p.2)).sum) :
    criar_figura_pareto_dict c
      = Figura.pareto ((most_common c).map (fun p => p.1))
          (((most_common c).map (fun p => p.2)).map (fun (v : Nat) => (v : ℚ)))
          (p_acum ((most_common c).map (fun p => p.2)))
    ∧ List.Chain' (· ≤ ·) (p_acum ((most_common c).map (fun p => p.2)))
    ∧ (p_acum ((most_common c).map (fun p => p.2))).getLast? = some 100 := by
  have hne : c ≠ [] := by rintro rfl; simp at h
  have hperm := (most_common_perm c).map (fun p => p.2)
  have h' : 0 < ((most_common c).map (fun p => p.2)).sum := by
    rw [hperm.sum_eq]; exact h
  exact ⟨by simp [criar_figura_pareto_dict, hne],
    p_acum_chain _ h', p_acum_getLast _ h'⟩

/-- C3 witness, at the one-entry tally A ↦ 1. -/
theorem C3_witness :
    criar_figura_pareto_dict [("A", 1)]
      = Figura.pareto ((most_common [("A", 1)]).map (fun p => p.1))
          (((most_common [("A", 1)]).map (fun p => p.2)).map
            (fun (v : Nat) => (v : ℚ)))
          (p_acum ((most_common [("A", 1)]).map (fun p => p.2)))
    ∧ List.Chain' (· ≤ ·) (p_acum ((most_common [("A", 1)]).map (fun p => p.2)))
    ∧ (p_acum ((most_common [("A", 1)]).map (fun p => p.2))).getLast?
        = some 100 :=
  C3_p_acum_monotone_last [("A", 1)] (by decide)

/-- C4: a column whose cells are all missing (which includes the empty
column) yields the empty tally, and `criar_figura_pareto_dict` then takes the
"Sem dados" placeholder branch — returning before the cumulative-percentage
division is ever reached. -/
theorem C4_sem_dados (df : DataFrame) (coluna : String)
    (h : ∀ cell ∈ df.dados coluna, cell = none) :
    contar_respostas_multipla df coluna = []
    ∧ criar_figura_pareto_dict (contar_respostas_multipla df coluna)
        = Figura.semDados := by
  have hnil : (df.dados coluna).filterMap id = [] :=
    List.filterMap_eq_nil_iff.mpr h
  have hc : contar_respostas_multipla df coluna = [] := by
    unfold contar_respostas_multipla
    rw [hnil]
    rfl
  exact ⟨hc, by simp [hc, criar_figura_pareto_dict]⟩

/-- C4 witness: a three-row column of only missing cells. -/
theorem C4_witness :
    contar_respostas_multipla dfTodasFaltantes "q" = []
    ∧ criar_figura_pareto_dict (contar_respostas_multipla dfTodasFaltantes "q")
        = Figura.semDados :=
  C4_sem_dados dfTodasFaltantes "q" (by decide)

/-- C5: for a URL containing neither recognized substring shape, the loader
reports the invalid-URL error and returns `None` independently of the fetch
oracle (so no fetch is attempted), and the page shows the top-level error. -/
theorem C5_url_invalida (url : String)
    (h1 : pyIn "docs.google.com/spreadsheets/d/e/" url = false)
    (h2 : pyIn "docs.google.com/spreadsheets/d/" url = false)
    (fetch : String → Except String DataFrame) :
    carregar_planilha_google_sheets fetch url = (none, [msg_url_invalida])
    ∧ paginaPrincipal fetch url = Pagina.falha := by
  have hr : resolver_csv_url url = none := by
    simp [resolver_csv_url, h1, h2]
  constructor
  · simp [carregar_planilha_google_sheets, hr]
  · simp [paginaPrincipal, carregar_planilha_google_sheets, hr]

/-- C5 witness, at an unrelated URL with a fetch oracle that would fail. -/
theorem C5_witness :
    carregar_planilha_google_sheets (fun _ => Except.error "offline")
        "https://example.com/data.csv"
      = (none, [msg_url_invalida])
    ∧ paginaPrincipal (fun _ => Except.error "offline")
        "https://example.com/data.csv"
      = Pagina.falha :=
  C5_url_invalida "https://example.com/data.csv" (by decide) (by decide) _

/-- C6: for every URL matching a recognized shape the derived CSV-export URL
is the value of a fixed function of the URL (hence deterministic), and it
contains the identifier extracted from the input — the path segment after
"/d/e/" for the published shape, after "/d/" for the share shape. -/
theorem C6_csv_url_contains_id (url : String) :
    (pyIn "docs.google.com/spreadsheets/d/e/" url = true →
      resolver_csv_url url = some (csv_url_pub (published_id url))
      ∧ pyIn (published_id url) (csv_url_pub (published_id url)) = true)
    ∧ (pyIn "docs.google.com/spreadsheets/d/e/" url = false →
       pyIn "docs.google.com/spreadsheets/d/" url = true →
      resolver_csv_url url = some (csv_url_export (sheet_id url))
      ∧ pyIn (sheet_id url) (csv_url_export (sheet_id url)) = true) := by
  constructor
  · intro h
    exact ⟨by simp [resolver_csv_url, h], pyIn_append_mid _ _ _⟩
  · intro h1 h2
    exact ⟨by simp [resolver_csv_url, h1, h2], pyIn_append_mid _ _ _⟩

/-- C6 witness: one URL of each recognized shape. -/
theorem C6_witness :
    (resolver_csv_url "https://docs.google.com/spreadsheets/d/e/ABC123/pubhtml"
       = some (csv_url_pub (published_id
           "https://docs.google.com/spreadsheets/d/e/ABC123/pubhtml"))
     ∧ pyIn (published_id "https://docs.google.com/spreadsheets/d/e/ABC123/pubhtml")
         (csv_url_pub (published_id
           "https://docs.google.com/spreadsheets/d/e/ABC123/pubhtml")) = true)
    ∧ (resolver_csv_url "https://docs.google.com/spreadsheets/d/XYZ9/edit"
       = some (csv_url_export (sheet_id
           "https://docs.google.com/spreadsheets/d/XYZ9/edit"))
     ∧ pyIn (sheet_id "https://docs.google.com/spreadsheets/d/XYZ9/edit")
         (csv_url_export (sheet_id
           "https://docs.google.com/spreadsheets/d/XYZ9/edit")) = true) :=
  ⟨(C6_csv_url_contains_id _).1 (by decide),
   (C6_csv_url_contains_id _).2 (by decide) (by decide)⟩

/-- C7: for every non-empty tally, the (label, count) sequence handed to the
chart — `counter.most_common()` — is sorted by count in non-increasing
order. -/
theorem C7_sorted_desc (c : Counter) (_h : c ≠ []) :
    List.Sorted descCount (most_common c) :=
  List.sorted_insertionSort descCount c

/-- C7 witness, at a two-entry tally given in ascending order. -/
theorem C7_witness : List.Sorted descCount (most_common [("A", 1), ("B", 3)]) :=
  C7_sorted_desc [("A", 1), ("B", 3)] (by decide)

/-- C8: over the already-descending counts [5, 3, 2], the cumulative
percentages 100 × running-sum ÷ total are exactly [50, 80, 100]. -/
theorem C8_cumulative_example : p_acum [5, 3, 2] = [50, 80, 100] := by
  norm_num [p_acum, cumsum, cumsumAux]

/-- C9: every count stored by `contar_respostas_multipla` is at least 1, so
a non-empty tally has strictly positive total and the denominator of the
cumulative-percentage division (the sum over `most_common`) is positive
whenever that code is reached. -/
theorem C9_counts_positive (df : DataFrame) (coluna : String) :
    (∀ p ∈ contar_respostas_multipla df coluna, 1 ≤ p.2)
    ∧ (contar_respostas_multipla df coluna ≠ [] →
        0 < ((most_common (contar_respostas_multipla df coluna)).map
              (fun p => p.2)).sum) := by
  constructor
  · exact fun p hp => mkCounter_pos _ p hp
  · intro hne
    exact most_common_sum_pos _ hne (fun p hp => mkCounter_pos _ p hp)

/-- C9 witness: on a concrete table, the key "Sim" has count 2 ≥ 1 and the
total over the sorted tally is positive. -/
theorem C9_witness :
    1 ≤ (("Sim", 2) : String × Nat).2
    ∧ 0 < ((most_common (contar_respostas_multipla dfPositivo "q")).map
            (fun p => p.2)).sum :=
  ⟨(C9_counts_positive dfPositivo "q").1 ("Sim", 2) (by decide),
   (C9_counts_positive dfPositivo "q").2 (by decide)⟩

/-- C10: every URL containing the published shape
"docs.google.com/spreadsheets/d/e/" also contains the share shape
"docs.google.com/spreadsheets/d/" (the latter is a leading segment of the
former), and the dispatch is order-dependent: such a URL always resolves via
the published branch to a "/pub?output=csv" URL, while the export branch
applies exactly to URLs containing the share shape but not the published
one. -/
theorem C10_branch_order (url : String) :
    (pyIn "docs.google.com/spreadsheets/d/e/" url = true →
      pyIn "docs.google.com/spreadsheets/d/" url = true)
    ∧ (pyIn "docs.google.com/spreadsheets/d/e/" url = true →
      resolver_csv_url url = some (csv_url_pub (published_id url)))
    ∧ (pyIn "docs.google.com/spreadsheets/d/" url = true →
       pyIn "docs.google.com/spreadsheets/d/e/" url = false →
      resolver_csv_url url = some (csv_url_export (sheet_id url))) := by
  refine ⟨fun h => ?_, fun h => by simp [resolver_csv_url, h],
    fun h2 h1 => by simp [resolver_csv_url, h1, h2]⟩
  have hpre : listPre "docs.google.com/spreadsheets/d/".toList
      "docs.google.com/spreadsheets/d/e/".toList = true := by decide
  exact listOccurs_mono hpre h

/-- C10 witness: a published-shape URL also contains the share shape and
resolves via the published branch; a plain share URL takes the export
branch. -/
theorem C10_witness :
    pyIn "docs.google.com/spreadsheets/d/"
        "https://docs.google.com/spreadsheets/d/e/K9/pub" = true
    ∧ resolver_csv_url "https://docs.google.com/spreadsheets/d/e/K9/pub"
        = some (csv_url_pub (published_id
            "https://docs.google.com/spreadsheets/d/e/K9/pub"))
    ∧ resolver_csv_url "https://docs.google.com/spreadsheets/d/QQ7/view"
        = some (csv_url_export (sheet_id
            "https://docs.google.com/spreadsheets/d/QQ7/view")) :=
  ⟨(C10_branch_order _).1 (by decide),
   (C10_branch_order _).2.1 (by decide),
   (C10_branch_order _).2.2 (by decide) (by decide)⟩

end ParetoClinica
